import Mathlib

/-!
Verification of the Everyday Tasks Hub backend (`src/server.js`).

The server is a single-process, in-memory key-value store accessed over
HTTP.  We shallowly embed its data model and handlers:

* JSON-like values are the inductive `JSVal`; JavaScript objects are
  association lists `List (String × JSVal)` in insertion order, which is
  exactly the own-enumerable-key order that `for (const key in source)`
  and `{ ...target }` observe on plain JSON objects (unique keys).
* The four in-memory stores (`hubStateByVisitorId`, `alexaUserToVisitor`,
  `visitorCounter`, `registeredProfiles`) form the `ServerState`
  structure; handlers are pure state transformers returning a
  `Response × ServerState`.
* `new Date().toISOString()` is modelled by an explicit `now : String`
  parameter threaded into each handler (one timestamp per request).
-/

namespace HubServer

/-- JSON-like runtime values.  `undef` models JavaScript `undefined`
(the value of a missing property, and the value the merge skips);
numbers are modelled as integers (no floating point is exercised by the
server's own data). -/
inductive JSVal where
  | undef
  | null
  | bool (b : Bool)
  | num (n : Int)
  | str (s : String)
  | arr (elems : List JSVal)
  | obj (fields : List (String × JSVal))
deriving Repr

/-- Property read `o[k]` on an object: the first binding of `k`, or
`undefined` when the key is absent. -/
def getKey (k : String) : List (String × JSVal) → JSVal
  | [] => .undef
  | (k₀, v₀) :: rest => if k₀ = k then v₀ else getKey k rest

/-- Property write `o[k] = v` on an object: overwrite the binding in
place when the key exists, otherwise append it (JavaScript insertion
order). -/
def setKey (k : String) (v : JSVal) : List (String × JSVal) → List (String × JSVal)
  | [] => [(k, v)]
  | (k₀, v₀) :: rest => if k₀ = k then (k, v) :: rest else (k₀, v₀) :: setKey k v rest

/-- JavaScript falsiness on the values we model (`undefined`, `null`,
`false`, `0`, `""`). -/
def jsFalsy : JSVal → Bool
  | .undef => true
  | .null => true
  | .bool b => !b
  | .num n => n = 0
  | .str s => s = ""
  | .arr _ => false
  | .obj _ => false

/-- Worker for `deepMerge` (server.js lines 129–150).  `target` is the
object the source reads `target[key]` from, `result` the accumulator
started as `{ ...target }`, and the third argument the remaining
entries of `source` in iteration order.  An entry is skipped when its
value is `undefined`; it is merged recursively when both the incoming
value and `target[key]` are non-null, non-array objects, and assigned
wholesale otherwise. -/
def deepMergeAux (target : List (String × JSVal)) :
    List (String × JSVal) → List (String × JSVal) → List (String × JSVal)
  | result, [] => result
  | result, (k, v) :: rest =>
    match v, getKey k target with
    | .undef, _ => deepMergeAux target result rest
    | .obj o₂, .obj o₁ =>
      deepMergeAux target (setKey k (.obj (deepMergeAux o₁ o₁ o₂)) result) rest
    | v', _ => deepMergeAux target (setKey k v' result) rest
  termination_by _ src => sizeOf src
  decreasing_by all_goals simp_wf <;> omega

/-- `deepMerge(target, source)` from server.js lines 129–150. -/
def deepMerge (target source : List (String × JSVal)) : List (String × JSVal) :=
  deepMergeAux target target source

/-- The value the merge stores for one non-`undefined` source entry:
recursive merge when both sides are objects, wholesale replacement
otherwise. -/
def mergedVal (target : List (String × JSVal)) (k : String) : JSVal → JSVal
  | .obj o₂ =>
    match getKey k target with
    | .obj o₁ => .obj (deepMerge o₁ o₂)
    | _ => .obj o₂
  | v => v

theorem getKey_setKey_self (k : String) (v : JSVal) (l : List (String × JSVal)) :
    getKey k (setKey k v l) = v := by
  induction l with
  | nil => simp [setKey, getKey]
  | cons hd tl ih =>
    obtain ⟨k₀, v₀⟩ := hd
    by_cases h : k₀ = k <;> simp [setKey, getKey, h, ih]

theorem getKey_setKey_ne (k₀ k : String) (hne : k₀ ≠ k) (v : JSVal)
    (l : List (String × JSVal)) : getKey k (setKey k₀ v l) = getKey k l := by
  induction l with
  | nil => simp [setKey, getKey, hne]
  | cons hd tl ih =>
    obtain ⟨k₁, v₁⟩ := hd
    by_cases h : k₁ = k₀ <;> by_cases h' : k₁ = k <;>
      simp_all [setKey, getKey]

theorem getKey_eq_undef_of_not_mem (k : String) (l : List (String × JSVal))
    (h : k ∉ l.map Prod.fst) : getKey k l = .undef := by
  induction l with
  | nil => simp [getKey]
  | cons hd tl ih =>
    obtain ⟨k₀, v₀⟩ := hd
    simp only [List.map_cons, List.mem_cons, not_or] at h
    simp [getKey, Ne.symm h.1, ih h.2]

theorem deepMergeAux_nil (target result : List (String × JSVal)) :
    deepMergeAux target result [] = result := by
  simp [deepMergeAux]

theorem deepMergeAux_cons_undef (target result rest : List (String × JSVal))
    (k₁ : String) :
    deepMergeAux target result ((k₁, .undef) :: rest) =
      deepMergeAux target result rest := by
  simp [deepMergeAux]

theorem deepMergeAux_cons (target result rest : List (String × JSVal))
    (k₁ : String) (v₁ : JSVal) (h : v₁ ≠ .undef) :
    deepMergeAux target result ((k₁, v₁) :: rest) =
      deepMergeAux target (setKey k₁ (mergedVal target k₁ v₁) result) rest := by
  cases v₁ <;> cases h₂ : getKey k₁ target <;>
    simp_all [deepMergeAux, mergedVal, deepMerge]

/-- Pointwise characterization of the recursive merge, for source
objects with unique keys (JavaScript objects cannot repeat a key). -/
theorem getKey_deepMergeAux (target : List (String × JSVal)) :
    ∀ (source result : List (String × JSVal)),
      (source.map Prod.fst).Nodup → ∀ k,
      getKey k (deepMergeAux target result source) =
        match getKey k source, getKey k target with
        | .undef, _ => getKey k result
        | .obj o₂, .obj o₁ => .obj (deepMerge o₁ o₂)
        | sv, _ => sv := by
  intro source
  induction source with
  | nil => intro result _ k; simp [deepMergeAux_nil, getKey]
  | cons hd rest ih =>
    obtain ⟨k₁, v₁⟩ := hd
    intro result hnd k
    rw [List.map_cons, List.nodup_cons] at hnd
    obtain ⟨hk₁, hnd'⟩ := hnd
    by_cases hv : v₁ = .undef
    · subst hv
      rw [deepMergeAux_cons_undef, ih result hnd' k]
      by_cases hkk : k₁ = k
      · subst hkk
        rw [getKey_eq_undef_of_not_mem k₁ rest hk₁]
        simp [getKey]
      · simp [getKey, hkk]
    · rw [deepMergeAux_cons target result rest k₁ v₁ hv,
        ih (setKey k₁ (mergedVal target k₁ v₁) result) hnd' k]
      by_cases hkk : k₁ = k
      · subst hkk
        rw [getKey_eq_undef_of_not_mem k₁ rest hk₁]
        have hget : getKey k₁ ((k₁, v₁) :: rest) = v₁ := by simp [getKey]
        rw [hget, getKey_setKey_self]
        cases v₁ <;> cases h₂ : getKey k₁ target <;>
          simp_all [mergedVal]
      · rw [getKey_setKey_ne k₁ k hkk]
        simp [getKey, hkk]

/-- C1: the recursive merge satisfies the spec's rule for every pair of
JSON-like records with well-formed (duplicate-free) update keys: a key
whose update value is `undefined` (or which is absent from the update)
keeps the existing value; when both sides hold non-null, non-array
structured records the values are merged recursively; otherwise the
incoming value wholly replaces the existing one.  In particular the
spec's two examples hold: arrays are replaced wholesale, and nested
records are merged key-by-key. -/
theorem C1_deepMerge_follows_spec_rule :
    (∀ (target source : List (String × JSVal)),
        (source.map Prod.fst).Nodup → ∀ k,
        getKey k (deepMerge target source) =
          match getKey k source, getKey k target with
          | .undef, _ => getKey k target
          | .obj o₂, .obj o₁ => .obj (deepMerge o₁ o₂)
          | sv, _ => sv)
    ∧ deepMerge [("a", .num 1), ("b", .arr [.num 1, .num 2])]
        [("a", .num 2), ("b", .arr [.num 3])] =
        [("a", .num 2), ("b", .arr [.num 3])]
    ∧ deepMerge
        [("privacy", .obj [("microphoneEnabled", .bool true),
            ("allowVoiceHistory", .bool true)])]
        [("privacy", .obj [("microphoneEnabled", .bool false)])] =
        [("privacy", .obj [("microphoneEnabled", .bool false),
            ("allowVoiceHistory", .bool true)])] := by
  refine ⟨?_, ?_, ?_⟩
  · intro target source hnd k
    simpa [deepMerge] using getKey_deepMergeAux target source target hnd k
  · simp [deepMerge, deepMergeAux, getKey, setKey]
  · simp [deepMerge, deepMergeAux, getKey, setKey]

/-- Witness for C1 at a concrete input. -/
theorem C1_deepMerge_follows_spec_rule_witness :
    getKey "a" (deepMerge [("a", JSVal.num 1)] [("a", JSVal.num 2)]) = JSVal.num 2 := by
  have h := C1_deepMerge_follows_spec_rule.1 [("a", JSVal.num 1)]
    [("a", JSVal.num 2)] (by simp) "a"
  simpa [getKey] using h

/-! ### JavaScript string primitives

JavaScript strings are sequences of characters; we model the string
methods the server uses (`startsWith`, `includes`, `toLowerCase`,
`substring`, template-literal number rendering) directly on the
character list so that every handler evaluates on concrete inputs. -/

/-- `pat` is an initial segment of `s`. -/
def beginsWith : List Char → List Char → Bool
  | [], _ => true
  | _ :: _, [] => false
  | p :: ps, c :: cs => p == c && beginsWith ps cs

/-- `s.startsWith(pat)`. -/
def strStartsWith (s pat : String) : Bool := beginsWith pat.data s.data

/-- `pat` occurs contiguously in the character list. -/
def containsSeq : List Char → List Char → Bool
  | [], pat => pat.isEmpty
  | c :: cs, pat => beginsWith pat (c :: cs) || containsSeq cs pat

/-- `s.includes(pat)`. -/
def strIncludes (s pat : String) : Bool := containsSeq s.data pat.data

/-- `s.toLowerCase()` (the server only lowercases ASCII names). -/
def lowerStr (s : String) : String := ⟨s.data.map Char.toLower⟩

/-- `s.substring(0, n)`. -/
def strTake (s : String) (n : Nat) : String := ⟨s.data.take n⟩

/-- Decimal digits of `n`, least significant first, with a structural
fuel argument (`fuel ≥ n` suffices) so concrete states evaluate. -/
def decDigitsAux : Nat → Nat → List Nat
  | 0, _ => []
  | fuel + 1, n => if n = 0 then [] else n % 10 :: decDigitsAux fuel (n / 10)

/-- The decimal string a JavaScript template literal renders for a
natural number. -/
def natToString (n : Nat) : String :=
  if n = 0 then "0"
  else ((decDigitsAux n n).reverse.map Nat.digitChar).asString

theorem decDigitsAux_eq_digits : ∀ f n, n ≤ f → decDigitsAux f n = Nat.digits 10 n := by
  intro f
  induction f with
  | zero =>
    intro n hn
    interval_cases n
    simp [decDigitsAux]
  | succ f ih =>
    intro n hn
    by_cases h0 : n = 0
    · subst h0; simp [decDigitsAux]
    · rw [decDigitsAux, if_neg h0,
        Nat.digits_def' (by norm_num : 1 < 10) (Nat.pos_of_ne_zero h0)]
      have hlt : n / 10 < n := Nat.div_lt_self (Nat.pos_of_ne_zero h0) (by norm_num)
      rw [ih (n / 10) (by omega)]

theorem natToString_eq_digits (n : Nat) (h : n ≠ 0) :
    natToString n = ((Nat.digits 10 n).reverse.map Nat.digitChar).asString := by
  rw [natToString, if_neg h, decDigitsAux_eq_digits n n le_rfl]

theorem digitChar_inj_below_ten :
    ∀ a, a < 10 → ∀ b, b < 10 → Nat.digitChar a = Nat.digitChar b → a = b := by decide

theorem map_digitChar_inj :
    ∀ (l₁ l₂ : List Nat), (∀ d ∈ l₁, d < 10) → (∀ d ∈ l₂, d < 10) →
      l₁.map Nat.digitChar = l₂.map Nat.digitChar → l₁ = l₂ := by
  intro l₁
  induction l₁ with
  | nil => intro l₂ _ _ h; cases l₂ <;> simp_all
  | cons a as ih =>
    intro l₂ h₁ h₂ h
    cases l₂ with
    | nil => simp_all
    | cons b bs =>
      simp only [List.map_cons, List.cons.injEq] at h
      have ha : a = b :=
        digitChar_inj_below_ten a (h₁ a (by simp)) b (h₂ b (by simp)) h.1
      have hs : as = bs :=
        ih bs (fun d hd => h₁ d (by simp [hd])) (fun d hd => h₂ d (by simp [hd])) h.2
      rw [ha, hs]

theorem string_data_inj {s t : String} (h : s.data = t.data) : s = t := by
  cases s; cases t; exact congrArg String.mk h

theorem digits_all_below_ten (n : Nat) :
    ∀ d ∈ (Nat.digits 10 n).reverse, d < 10 := by
  intro d hd
  rw [List.mem_reverse] at hd
  exact Nat.digits_lt_base (by norm_num) hd

theorem natToString_inj : ∀ {m n : Nat}, natToString m = natToString n → m = n := by
  intro m n h
  by_cases hm : m = 0 <;> by_cases hn : n = 0
  · rw [hm, hn]
  · exfalso
    rw [hm, natToString_eq_digits n hn] at h
    have h0 : natToString 0 = ([0].map Nat.digitChar).asString := by decide
    rw [h0] at h
    have hl := List.asString_inj.mp h
    have := map_digitChar_inj [0] ((Nat.digits 10 n).reverse) (by simp)
      (digits_all_below_ten n) hl
    have hdig : Nat.digits 10 n = [0] := by
      have := congrArg List.reverse this
      simpa using this.symm
    have := Nat.ofDigits_digits 10 n
    rw [hdig] at this
    simp [Nat.ofDigits] at this
    exact hn this.symm
  · exfalso
    rw [hn, natToString_eq_digits m hm] at h
    have h0 : natToString 0 = ([0].map Nat.digitChar).asString := by decide
    rw [h0] at h
    have hl := List.asString_inj.mp h
    have := map_digitChar_inj ((Nat.digits 10 m).reverse) [0]
      (digits_all_below_ten m) (by simp) hl
    have hdig : Nat.digits 10 m = [0] := by
      have := congrArg List.reverse this
      simpa using this
    have := Nat.ofDigits_digits 10 m
    rw [hdig] at this
    simp [Nat.ofDigits] at this
    exact hm this.symm
  · rw [natToString_eq_digits m hm, natToString_eq_digits n hn] at h
    have hl := List.asString_inj.mp h
    have hrev := map_digitChar_inj ((Nat.digits 10 m).reverse)
      ((Nat.digits 10 n).reverse) (digits_all_below_ten m) (digits_all_below_ten n) hl
    have hdig : Nat.digits 10 m = Nat.digits 10 n := by
      have := congrArg List.reverse hrev
      simpa using this
    have h₁ := Nat.ofDigits_digits 10 m
    have h₂ := Nat.ofDigits_digits 10 n
    rw [← h₁, ← h₂, hdig]

/-- ``` `alexa-user-${n}` ``` from server.js line 74. -/
def visitorName (n : Nat) : String := "alexa-user-" ++ natToString n

theorem visitorName_inj : ∀ {m n : Nat}, visitorName m = visitorName n → m = n := by
  intro m n h
  have hd := congrArg String.data h
  simp only [visitorName, String.data_append] at hd
  exact natToString_inj (string_data_inj (List.append_cancel_left hd))

/-! ### Avatar symbols and the default task catalog

The avatar and icon string literals are copied byte-for-byte from
`src/server.js` (the file stores them as double-encoded UTF-8; we
reproduce the characters the file actually contains, written with
unicode escapes). -/

def AVATAR_WOMAN : String := "ðŸ‘©"
def AVATAR_MAN : String := "ðŸ‘¨"
def AVATAR_BOY : String := "ðŸ‘¦"
def AVATAR_GIRL : String := "ðŸ‘§"
def AVATAR_GRANDMA : String := "ðŸ‘µ"
def AVATAR_GRANDPA : String := "ðŸ‘´"
def AVATAR_STUDENT : String :=
  "ðŸ§‘â€ðŸŽ“"
def AVATAR_GENERIC : String := "ðŸ‘¤"

/-- `getAvatarForName` (server.js lines 402–412): ordered
case-insensitive substring keyword matching, first match wins,
generic avatar otherwise. -/
def getAvatarForName (name : String) : String :=
  let nameLower := lowerStr name
  if strIncludes nameLower "mom" || strIncludes nameLower "mother"
      || strIncludes nameLower "mama" then AVATAR_WOMAN
  else if strIncludes nameLower "dad" || strIncludes nameLower "father"
      || strIncludes nameLower "papa" then AVATAR_MAN
  else if strIncludes nameLower "kid" || strIncludes nameLower "child"
      || strIncludes nameLower "son" then AVATAR_BOY
  else if strIncludes nameLower "daughter" || strIncludes nameLower "girl" then
    AVATAR_GIRL
  else if strIncludes nameLower "grandma" || strIncludes nameLower "grandmother" then
    AVATAR_GRANDMA
  else if strIncludes nameLower "grandpa" || strIncludes nameLower "grandfather" then
    AVATAR_GRANDPA
  else if strIncludes nameLower "student" then AVATAR_STUDENT
  else AVATAR_GENERIC

/-- `DEFAULT_TASKS` (server.js lines 51–58). -/
def DEFAULT_TASKS : List JSVal := [
  .obj [("id", .str "t1"), ("title", .str "Morning Routine"),
    ("icon", .str "â˜€ï¸"),
    ("description", .str "Start your day right"), ("category", .str "routine"),
    ("voiceCommand", .str "start my morning routine")],
  .obj [("id", .str "t2"), ("title", .str "Grocery List"),
    ("icon", .str "ðŸ›’"),
    ("description", .str "Manage shopping items"), ("category", .str "list"),
    ("voiceCommand", .str "open my grocery list")],
  .obj [("id", .str "t3"), ("title", .str "Medication Reminder"),
    ("icon", .str "ðŸ’Š"),
    ("description", .str "Never miss a dose"), ("category", .str "health"),
    ("voiceCommand", .str "set medication reminder")],
  .obj [("id", .str "t4"), ("title", .str "Control Lights"),
    ("icon", .str "ðŸ’¡"),
    ("description", .str "Smart home controls"), ("category", .str "home"),
    ("voiceCommand", .str "turn off the lights")],
  .obj [("id", .str "t5"), ("title", .str "Privacy Dashboard"),
    ("icon", .str "ðŸ›¡ï¸"),
    ("description", .str "Manage your data"), ("category", .str "privacy"),
    ("voiceCommand", .str "show privacy settings")],
  .obj [("id", .str "t6"), ("title", .str "Evening Routine"),
    ("icon", .str "ðŸŒ™"),
    ("description", .str "Wind down for the night"), ("category", .str "routine"),
    ("voiceCommand", .str "start evening routine")]]

/-- `createDefaultHubState` (server.js lines 84–111), with the request
timestamp passed explicitly.  Field names and order are verbatim from
the source — note the literal `odisplayName` key on line 87. -/
def createDefaultHubState (now visitorId : String) : List (String × JSVal) := [
  ("visitorId", .str visitorId),
  ("odisplayName", .null),
  ("activeTile", .str "home"),
  ("lastAction", .str "NONE"),
  ("profile", .str "default"),
  ("routineResult", .obj [("lights", .null), ("thermostat", .null),
    ("reminder", .null)]),
  ("groceryList", .arr []),
  ("pendingItem", .null),
  ("privacy", .obj [("microphoneEnabled", .bool true),
    ("allowVoiceHistory", .bool true), ("lastHistoryDelete", .null)]),
  ("tasks", .arr DEFAULT_TASKS),
  ("customTasks", .arr []),
  ("debugInfo", .obj [("lastUpdated", .str now), ("lastAlexaRequest", .null),
    ("isAlexaUser", .bool (strStartsWith visitorId "alexa-user-"))])]

/-! ### The in-memory stores and the request handlers -/

/-- One registered profile (server.js line 46). -/
structure Profile where
  name : String
  avatar : String
  createdAt : String
  lastSeen : String
deriving Repr, DecidableEq

/-- The module-level mutable stores of server.js (lines 29–46). -/
structure ServerState where
  hubStateByVisitorId : String → Option (List (String × JSVal))
  alexaUserToVisitor : String → Option String
  visitorCounter : Nat
  registeredProfiles : String → Option Profile

/-- The stores at process start: all maps empty, counter zero. -/
def initialState : ServerState where
  hubStateByVisitorId := fun _ => none
  alexaUserToVisitor := fun _ => none
  visitorCounter := 0
  registeredProfiles := fun _ => none

/-- Point update of a string-keyed map. -/
def setMap {α : Type} (f : String → Option α) (k : String) (v : α) :
    String → Option α :=
  fun x => if x = k then some v else f x

/-- `getVisitorId` (server.js lines 65–77): identity for identifiers
without the `amzn1.` prefix; counter-based first-seen allocation for
Alexa identifiers.  Returns the visitor id and the possibly-extended
stores. -/
def getVisitorId (alexaUserId : String) (s : ServerState) : String × ServerState :=
  if !strStartsWith alexaUserId "amzn1." then (alexaUserId, s)
  else
    match s.alexaUserToVisitor alexaUserId with
    | some v => (v, s)
    | none =>
      let v := visitorName (s.visitorCounter + 1)
      (v, { s with visitorCounter := s.visitorCounter + 1,
                   alexaUserToVisitor := setMap s.alexaUserToVisitor alexaUserId v })

/-- `getOrCreateHubState` (server.js lines 118–124). -/
def getOrCreateHubState (visitorId now : String) (s : ServerState) :
    List (String × JSVal) × ServerState :=
  match s.hubStateByVisitorId visitorId with
  | some st => (st, s)
  | none =>
    let st := createDefaultHubState now visitorId
    (st, { s with hubStateByVisitorId := setMap s.hubStateByVisitorId visitorId st })

/-- An HTTP response: status code plus JSON body. -/
structure Response where
  status : Nat
  body : JSVal

/-- Truthiness of an optional JavaScript string (absent and `""` are
falsy). -/
def optTruthy : Option String → Bool
  | none => false
  | some s => !(s == "")

/-- `registeredProfiles[visitorId]?.createdAt || now` (server.js
lines 195 and 313). -/
def createdAtOr (p : Option Profile) (now : String) : String :=
  match p with
  | some pr => if pr.createdAt == "" then now else pr.createdAt
  | none => now

/-- The profile record both registration paths store (server.js
lines 192–197 and 310–315). -/
def mkProfile (existing : Option Profile) (name now : String) : Profile where
  name := name
  avatar := getAvatarForName name
  createdAt := createdAtOr existing now
  lastSeen := now

/-- JSON encoding of a stored profile (as serialized in responses). -/
def profileJS (p : Profile) : JSVal :=
  .obj [("name", .str p.name), ("avatar", .str p.avatar),
    ("createdAt", .str p.createdAt), ("lastSeen", .str p.lastSeen)]

/-- Lines 200–204 of server.js: normalize `debugInfo` to an object if
falsy, then set `lastUpdated`, `isAlexaUser` and `originalAlexaId` on
it (a truthy non-object `debugInfo` is stored as-is, since property
assignment on a primitive is a silent no-op). -/
def refreshDebug (uid now : String) (st : List (String × JSVal)) :
    List (String × JSVal) :=
  let d₀ := getKey "debugInfo" st
  let d₁ := if jsFalsy d₀ then .obj [] else d₀
  match d₁ with
  | .obj fs =>
    setKey "debugInfo" (.obj (setKey "originalAlexaId"
      (if strStartsWith uid "amzn1." then .str (strTake uid 30 ++ "...")
       else .null)
      (setKey "isAlexaUser" (.bool (strStartsWith uid "amzn1."))
        (setKey "lastUpdated" (.str now) fs)))) st
  | d => setKey "debugInfo" d st

/-- `POST /hub/state` (server.js lines 167–230).  Validates `userId`,
resolves the visitor, lazily creates state, merges the partial update,
propagates a provided display name into the state and the profile
registry, refreshes debug metadata, stores the result, and touches the
profile's `lastSeen`. -/
def postHubState (now : String) (userId : Option String)
    (state : Option (List (String × JSVal))) (displayName : Option String)
    (s : ServerState) : Response × ServerState :=
  if !optTruthy userId then
    (⟨400, .obj [("ok", .bool false), ("error", .str "userId is required")]⟩, s)
  else
    let uid := userId.getD ""
    let r₁ := getVisitorId uid s
    let visitorId := r₁.1
    let r₂ := getOrCreateHubState visitorId now r₁.2
    let merged := deepMerge r₂.1 (state.getD [])
    let withName :=
      if optTruthy displayName then
        setKey "displayName" (.str (displayName.getD "")) merged
      else merged
    let s₃ :=
      if optTruthy displayName then
        { r₂.2 with registeredProfiles := (setMap r₂.2.registeredProfiles visitorId
            (mkProfile (r₂.2.registeredProfiles visitorId) (displayName.getD "") now)) }
      else r₂.2
    let withDebug := refreshDebug uid now withName
    let s₄ := { s₃ with hubStateByVisitorId :=
      (setMap s₃.hubStateByVisitorId visitorId withDebug) }
    let s₅ :=
      match s₄.registeredProfiles visitorId with
      | some p => { s₄ with registeredProfiles :=
          (setMap s₄.registeredProfiles visitorId { p with lastSeen := now }) }
      | none => s₄
    (⟨200, .obj [("ok", .bool true), ("state", .obj withDebug),
      ("visitorId", .str visitorId)]⟩, s₅)

/-- `GET /hub/state/:userId` (server.js lines 236–261). -/
def getHubState (now userId : String) (s : ServerState) : Response × ServerState :=
  if userId == "" then
    (⟨400, .obj [("ok", .bool false), ("error", .str "userId is required")]⟩, s)
  else
    let r₁ := getVisitorId userId s
    let r₂ := getOrCreateHubState r₁.1 now r₁.2
    (⟨200, .obj r₂.1⟩, r₂.2)

/-- `POST /hub/profile/register` (server.js lines 297–338). -/
def postProfileRegister (now : String) (userId name : Option String)
    (s : ServerState) : Response × ServerState :=
  if !optTruthy userId || !optTruthy name then
    (⟨400, .obj [("ok", .bool false),
      ("error", .str "userId and name are required")]⟩, s)
  else
    let uid := userId.getD ""
    let nm := name.getD ""
    let r₁ := getVisitorId uid s
    let visitorId := r₁.1
    let prof := mkProfile (r₁.2.registeredProfiles visitorId) nm now
    let s₂ := { r₁.2 with registeredProfiles :=
      (setMap r₁.2.registeredProfiles visitorId prof) }
    let r₃ := getOrCreateHubState visitorId now s₂
    let hubSt := setKey "profile" (.str (lowerStr nm))
      (setKey "displayName" (.str nm) r₃.1)
    let s₄ := { r₃.2 with hubStateByVisitorId :=
      (setMap r₃.2.hubStateByVisitorId visitorId hubSt) }
    (⟨200, .obj [("ok", .bool true), ("profile", profileJS prof),
      ("visitorId", .str visitorId)]⟩, s₄)

/-- `POST /hub/reset` (server.js lines 354–383). -/
def postHubReset (now : String) (userId : Option String) (s : ServerState) :
    Response × ServerState :=
  if !optTruthy userId then
    (⟨400, .obj [("ok", .bool false), ("error", .str "userId is required")]⟩, s)
  else
    let uid := userId.getD ""
    let r₁ := getVisitorId uid s
    let fresh := createDefaultHubState now r₁.1
    let s₂ := { r₁.2 with hubStateByVisitorId :=
      (setMap r₁.2.hubStateByVisitorId r₁.1 fresh) }
    (⟨200, .obj [("ok", .bool true), ("state", .obj fresh)]⟩, s₂)

/-- One inbound request.  `GET /hub/profiles`, `GET /hub/tasks`,
`GET /hub/users` and `GET /health` only read the stores. -/
inductive Request where
  | stateUpdate (now : String) (userId : Option String)
      (state : Option (List (String × JSVal))) (displayName : Option String)
  | stateRead (now userId : String)
  | profileRegister (now : String) (userId name : Option String)
  | hubReset (now : String) (userId : Option String)
  | profilesRead
  | tasksRead
  | usersRead
  | healthRead

/-- State transition of one request. -/
def step (s : ServerState) : Request → ServerState
  | .stateUpdate now u st dn => (postHubState now u st dn s).2
  | .stateRead now u => (getHubState now u s).2
  | .profileRegister now u n => (postProfileRegister now u n s).2
  | .hubReset now u => (postHubReset now u s).2
  | .profilesRead => s
  | .tasksRead => s
  | .usersRead => s
  | .healthRead => s

/-- The store reached by a request sequence from process start. -/
def runRequests (reqs : List Request) : ServerState :=
  reqs.foldl step initialState

theorem setMap_setMap_self {α : Type} (f : String → Option α) (k : String)
    (v v' : α) : setMap (setMap f k v) k v' = setMap f k v' := by
  funext x
  simp only [setMap]
  split <;> rfl

/-- C8: `POST /hub/state` without a `userId` (absent, or present but
empty — both falsy in the source's check) returns HTTP 400 with an
`ok:false` error body and returns every store unchanged: no hub state,
no identifier mapping, no profile is created or modified. -/
theorem C8_state_update_without_userId_is_rejected :
    ∀ (now : String) (st : Option (List (String × JSVal)))
      (dn : Option String) (s : ServerState),
      postHubState now none st dn s =
        (⟨400, .obj [("ok", .bool false), ("error", .str "userId is required")]⟩, s)
      ∧ postHubState now (some "") st dn s =
        (⟨400, .obj [("ok", .bool false), ("error", .str "userId is required")]⟩, s) := by
  intro now st dn s
  exact ⟨rfl, rfl⟩

/-- C3 (code bug): first access to the never-seen visitor identifier
`web-1` creates the documented default record — fixed UI/session
fields, null routine results, empty grocery list, null pending item,
all-enabled privacy, default task catalog, empty custom list, debug
sub-record — but the optional display-name field is stored under the
misspelled key `odisplayName` (server.js line 87), so reading
`displayName` yields `undefined` instead of the documented `null`. -/
theorem C3_default_state_displayName_key_is_misspelled :
    (getOrCreateHubState "web-1" "2026-01-01T00:00:00.000Z" initialState).1 =
      [("visitorId", .str "web-1"),
       ("odisplayName", .null),
       ("activeTile", .str "home"),
       ("lastAction", .str "NONE"),
       ("profile", .str "default"),
       ("routineResult", .obj [("lights", .null), ("thermostat", .null),
         ("reminder", .null)]),
       ("groceryList", .arr []),
       ("pendingItem", .null),
       ("privacy", .obj [("microphoneEnabled", .bool true),
         ("allowVoiceHistory", .bool true), ("lastHistoryDelete", .null)]),
       ("tasks", .arr DEFAULT_TASKS),
       ("customTasks", .arr []),
       ("debugInfo", .obj [("lastUpdated", .str "2026-01-01T00:00:00.000Z"),
         ("lastAlexaRequest", .null), ("isAlexaUser", .bool false)])]
    ∧ getKey "displayName"
        (getOrCreateHubState "web-1" "2026-01-01T00:00:00.000Z" initialState).1 =
        .undef
    ∧ getKey "odisplayName"
        (getOrCreateHubState "web-1" "2026-01-01T00:00:00.000Z" initialState).1 =
        .null := by
  exact ⟨rfl, rfl, rfl⟩

/-! ### Identifier resolution (C5) -/

/-- Resolve a list of external identifiers in order, collecting the
returned visitor identifiers and threading the stores. -/
def resolveAll (s : ServerState) : List String → List String × ServerState
  | [] => ([], s)
  | u :: rest =>
    let p := getVisitorId u s
    let q := resolveAll p.2 rest
    (p.1 :: q.1, q.2)

theorem getVisitorId_fresh (u : String) (s : ServerState)
    (hu : strStartsWith u "amzn1." = true)
    (hfresh : s.alexaUserToVisitor u = none) :
    getVisitorId u s =
      (visitorName (s.visitorCounter + 1),
       { s with visitorCounter := s.visitorCounter + 1,
                alexaUserToVisitor := (setMap s.alexaUserToVisitor u
                  (visitorName (s.visitorCounter + 1))) }) := by
  simp [getVisitorId, hu, hfresh]

theorem resolveAll_fresh :
    ∀ (l : List String) (s : ServerState), l.Nodup →
      (∀ u ∈ l, strStartsWith u "amzn1." = true ∧ s.alexaUserToVisitor u = none) →
      (resolveAll s l).1 =
        (List.range l.length).map (fun k => visitorName (s.visitorCounter + k + 1)) := by
  intro l
  induction l with
  | nil => intro s _ _; simp [resolveAll]
  | cons u rest ih =>
    intro s hnd hf
    obtain ⟨hu, hufresh⟩ := hf u (by simp)
    rw [List.nodup_cons] at hnd
    obtain ⟨hnotmem, hnd'⟩ := hnd
    rw [resolveAll]
    rw [getVisitorId_fresh u s hu hufresh]
    have hrest : (resolveAll
        { s with visitorCounter := s.visitorCounter + 1,
                 alexaUserToVisitor := (setMap s.alexaUserToVisitor u
                   (visitorName (s.visitorCounter + 1))) } rest).1 =
        (List.range rest.length).map
          (fun k => visitorName (s.visitorCounter + 1 + k + 1)) := by
      apply ih _ hnd'
      intro u' hu'
      refine ⟨(hf u' (by simp [hu'])).1, ?_⟩
      have hne : u' ≠ u := fun h => hnotmem (h ▸ hu')
      simpa [setMap, hne] using (hf u' (by simp [hu'])).2
    simp only [hrest, List.length_cons]
    rw [List.range_succ_eq_map, List.map_cons, List.map_map]
    congr 1 <;> simp <;> (intro a _; congr 1; omega)

/-- C5: identifier resolution is the identity (with unchanged stores)
for every external identifier without the voice-assistant prefix;
repeated resolution of the same identifier returns the same result and
leaves the stores unchanged; an allocated mapping entry is never
reassigned by any later resolution; and resolving N distinct fresh
prefixed identifiers yields the sequentially numbered visitor
identifiers in first-seen order, all pairwise distinct. -/
theorem C5_identifier_resolution :
    (∀ (u : String) (s : ServerState), strStartsWith u "amzn1." = false →
        getVisitorId u s = (u, s))
    ∧ (∀ (u : String) (s : ServerState),
        getVisitorId u (getVisitorId u s).2 = getVisitorId u s)
    ∧ (∀ (u v : String) (s : ServerState), s.alexaUserToVisitor u = some v →
        ∀ u₂, ((getVisitorId u₂ s).2).alexaUserToVisitor u = some v)
    ∧ (∀ (l : List String) (s : ServerState), l.Nodup →
        (∀ u ∈ l, strStartsWith u "amzn1." = true ∧
          s.alexaUserToVisitor u = none) →
        (resolveAll s l).1 =
          (List.range l.length).map (fun k => visitorName (s.visitorCounter + k + 1))
        ∧ (resolveAll s l).1.Nodup) := by
  refine ⟨?_, ?_, ?_, ?_⟩
  · intro u s h
    simp [getVisitorId, h]
  · intro u s
    cases hp : strStartsWith u "amzn1." with
    | false => simp [getVisitorId, hp]
    | true =>
      cases hm : s.alexaUserToVisitor u with
      | some v => simp [getVisitorId, hp, hm]
      | none => simp [getVisitorId, hp, hm, setMap]
  · intro u v s h u₂
    cases hp : strStartsWith u₂ "amzn1." with
    | false => simp [getVisitorId, hp, h]
    | true =>
      cases hm : s.alexaUserToVisitor u₂ with
      | some w => simp [getVisitorId, hp, hm, h]
      | none =>
        have hne : u ≠ u₂ := fun he => by rw [he, hm] at h; exact Option.noConfusion h
        simp [getVisitorId, hp, hm, setMap, hne, h]
  · intro l s hnd hf
    have heq := resolveAll_fresh l s hnd hf
    refine ⟨heq, ?_⟩
    rw [heq]
    refine List.Nodup.map ?_ (List.nodup_range _)
    intro a b hab
    have := visitorName_inj hab
    omega

/-- Witness for C5: a web identifier resolves to itself, and two fresh
Alexa identifiers receive the first two sequential visitor names. -/
theorem C5_identifier_resolution_witness :
    getVisitorId "web-1" initialState = ("web-1", initialState)
    ∧ (resolveAll initialState ["amzn1.a", "amzn1.b"]).1 =
        ["alexa-user-1", "alexa-user-2"] := by
  constructor
  · exact C5_identifier_resolution.1 "web-1" initialState rfl
  · have h := (C5_identifier_resolution.2.2.2 ["amzn1.a", "amzn1.b"] initialState
      (by simp) (by intro u hu; fin_cases hu <;> exact ⟨rfl, rfl⟩)).1
    rw [h]
    rfl

/-! ### Reset (C7) -/

/-- C7: for a visitor identifier (an identifier that is not mapped
through the Alexa prefix scheme), reset replaces that visitor's Hub
State wholesale with a freshly defaulted record while the profile
registry, the identifier mapping and the counter are untouched — the
resulting stores differ from the input only at the one hub-state key.
Applying reset twice in a row (at any timestamps) leaves exactly the
state of applying the second reset once. -/
theorem C7_reset_replaces_state_and_preserves_rest :
    (∀ (now uid : String) (s : ServerState), uid ≠ "" →
      strStartsWith uid "amzn1." = false →
      postHubReset now (some uid) s =
        (⟨200, .obj [("ok", .bool true),
          ("state", .obj (createDefaultHubState now uid))]⟩,
         { s with hubStateByVisitorId := (setMap s.hubStateByVisitorId uid
             (createDefaultHubState now uid)) }))
    ∧ (∀ (now now₂ : String) (u : Option String) (s : ServerState),
        (postHubReset now₂ u (postHubReset now u s).2).2 =
          (postHubReset now₂ u s).2) := by
  constructor
  · intro now uid s huid hp
    simp [postHubReset, optTruthy, huid, getVisitorId, hp]
  · intro now now₂ u s
    match u with
    | none => rfl
    | some uid =>
      by_cases huid : uid = ""
      · subst huid; rfl
      · cases hp : strStartsWith uid "amzn1." with
        | false =>
          simp [postHubReset, optTruthy, huid, getVisitorId, hp, setMap_setMap_self]
        | true =>
          cases hm : s.alexaUserToVisitor uid with
          | some v =>
            simp [postHubReset, optTruthy, huid, getVisitorId, hp, hm,
              setMap_setMap_self]
          | none =>
            simp [postHubReset, optTruthy, huid, getVisitorId, hp, hm, setMap,
              setMap_setMap_self]

/-- Witness for C7 at a concrete input. -/
theorem C7_reset_witness :
    postHubReset "T" (some "web-1") initialState =
      (⟨200, .obj [("ok", .bool true),
        ("state", .obj (createDefaultHubState "T" "web-1"))]⟩,
       { initialState with hubStateByVisitorId :=
         (setMap initialState.hubStateByVisitorId "web-1"
           (createDefaultHubState "T" "web-1")) }) :=
  C7_reset_replaces_state_and_preserves_rest.1 "T" "web-1" initialState
    (by decide) rfl

/-! ### Display-name propagation (C4) -/

theorem getVisitorId_preserves (u : String) (s : ServerState) :
    ((getVisitorId u s).2).hubStateByVisitorId = s.hubStateByVisitorId
    ∧ ((getVisitorId u s).2).registeredProfiles = s.registeredProfiles := by
  unfold getVisitorId
  cases hp : strStartsWith u "amzn1." <;> simp
  cases hm : s.alexaUserToVisitor u <;> simp

theorem getOrCreateHubState_preserves (v now : String) (s : ServerState) :
    ((getOrCreateHubState v now s).2).registeredProfiles = s.registeredProfiles
    ∧ ((getOrCreateHubState v now s).2).alexaUserToVisitor = s.alexaUserToVisitor
    ∧ ((getOrCreateHubState v now s).2).visitorCounter = s.visitorCounter := by
  unfold getOrCreateHubState
  cases hm : s.hubStateByVisitorId v <;> simp

theorem getKey_refreshDebug (uid now : String) (st : List (String × JSVal))
    (k : String) (hk : k ≠ "debugInfo") :
    getKey k (refreshDebug uid now st) = getKey k st := by
  unfold refreshDebug
  cases h₀ : getKey "debugInfo" st <;> simp only [jsFalsy] <;>
    first
      | rw [getKey_setKey_ne _ _ (Ne.symm hk)]
      | (split <;> rw [getKey_setKey_ne _ _ (Ne.symm hk)])

/-- C4 counterexample: a `POST /hub/state` carrying display name
`"Mom"` for the fresh visitor `web-1` leaves the stored Hub State's
`profile` field at its default `"default"` — it is not set to the
lowercase display name `"mom"` as the claim asserts for the state
update path (the `displayName` field itself is set). -/
theorem C4_counterexample_state_update_leaves_profile_field :
    getKey "profile"
      ((((postHubState "T" (some "web-1") none (some "Mom")
        initialState).2).hubStateByVisitorId "web-1").getD []) = .str "default"
    ∧ getKey "displayName"
      ((((postHubState "T" (some "web-1") none (some "Mom")
        initialState).2).hubStateByVisitorId "web-1").getD []) = .str "Mom"
    ∧ JSVal.str "default" ≠ JSVal.str "mom" := by
  refine ⟨?_, ?_, by simp⟩ <;>
    simp [postHubState, getVisitorId, getOrCreateHubState, deepMerge, deepMergeAux,
      refreshDebug, setKey, getKey, jsFalsy, setMap, optTruthy, mkProfile,
      createdAtOr, createDefaultHubState, strStartsWith, beginsWith, strTake]

/-- C4 (amended): the explicit registration action sets both the
`displayName` field and the lowercase `profile` field on the visitor's
Hub State; a `POST /hub/state` carrying a display name sets only the
`displayName` field (and registers/updates the profile record in the
registry) while the Hub State's `profile` field keeps whatever value
the merge produced. -/
theorem C4_displayName_propagation :
    (∀ (now uid nm : String) (s : ServerState), uid ≠ "" → nm ≠ "" →
      getKey "displayName"
        ((((postProfileRegister now (some uid) (some nm) s).2).hubStateByVisitorId
          (getVisitorId uid s).1).getD []) = .str nm
      ∧ getKey "profile"
        ((((postProfileRegister now (some uid) (some nm) s).2).hubStateByVisitorId
          (getVisitorId uid s).1).getD []) = .str (lowerStr nm))
    ∧ (∀ (now uid dn : String) (st : Option (List (String × JSVal)))
        (s : ServerState), uid ≠ "" → dn ≠ "" →
        getKey "displayName"
          ((((postHubState now (some uid) st (some dn) s).2).hubStateByVisitorId
            (getVisitorId uid s).1).getD []) = .str dn
        ∧ getKey "profile"
          ((((postHubState now (some uid) st (some dn) s).2).hubStateByVisitorId
            (getVisitorId uid s).1).getD []) =
          getKey "profile"
            (deepMerge (getOrCreateHubState (getVisitorId uid s).1 now
              (getVisitorId uid s).2).1 (st.getD []))
        ∧ ((postHubState now (some uid) st (some dn) s).2).registeredProfiles
            (getVisitorId uid s).1 =
          some (mkProfile ((getVisitorId uid s).2.registeredProfiles
            (getVisitorId uid s).1) dn now)) := by
  constructor
  · intro now uid nm s huid hnm
    simp [postProfileRegister, optTruthy, huid, hnm, setMap,
      getKey_setKey_self, getKey_setKey_ne]
  · intro now uid dn st s huid hdn
    have hpres := (getOrCreateHubState_preserves (getVisitorId uid s).1 now
      (getVisitorId uid s).2).1
    refine ⟨?_, ?_, ?_⟩ <;>
      simp [postHubState, optTruthy, huid, hdn, setMap, getKey_refreshDebug,
        getKey_setKey_self, getKey_setKey_ne, hpres, mkProfile]

/-- Witness for C4 at a concrete input. -/
theorem C4_displayName_propagation_witness :
    getKey "displayName"
      ((((postProfileRegister "T" (some "web-1") (some "Mom")
        initialState).2).hubStateByVisitorId "web-1").getD []) = .str "Mom"
    ∧ getKey "profile"
      ((((postProfileRegister "T" (some "web-1") (some "Mom")
        initialState).2).hubStateByVisitorId "web-1").getD []) =
      .str (lowerStr "Mom") := by
  have h := C4_displayName_propagation.1 "T" "web-1" "Mom" initialState
    (by decide) (by decide)
  have hv : (getVisitorId "web-1" initialState).1 = "web-1" := rfl
  rw [hv] at h
  exact h

/-! ### Avatar computation and profile timestamps (C6, C10) -/

/-- The spec's category table (§4.4), in source order: keyword groups
paired with their avatar. -/
def avatarTable : List (List String × String) := [
  (["mom", "mother", "mama"], AVATAR_WOMAN),
  (["dad", "father", "papa"], AVATAR_MAN),
  (["kid", "child", "son"], AVATAR_BOY),
  (["daughter", "girl"], AVATAR_GIRL),
  (["grandma", "grandmother"], AVATAR_GRANDMA),
  (["grandpa", "grandfather"], AVATAR_GRANDPA),
  (["student"], AVATAR_STUDENT)]

/-- Modelled from the spec (§4.4): generic ordered first-match
keyword lookup — the first category one of whose keywords occurs in
the lowercased name wins; no match falls through to the generic
avatar. -/
def findAvatar (nameLower : String) : List (List String × String) → String
  | [] => AVATAR_GENERIC
  | (kws, av) :: rest =>
    if kws.any (fun kw => strIncludes nameLower kw) then av
    else findAvatar nameLower rest

/-- C6: `getAvatarForName` is exactly the spec's ordered
case-insensitive first-match keyword lookup over the category table
(unmatched names get the generic avatar); "Grandma Sue" receives the
grandmother avatar and an unmatched name the generic one; registering
the same visitor twice keeps the first registration's `createdAt` and
sets `lastSeen` to the second registration's time. -/
theorem C6_avatar_and_registration_timestamps :
    (∀ name : String,
      getAvatarForName name = findAvatar (lowerStr name) avatarTable)
    ∧ getAvatarForName "Grandma Sue" = AVATAR_GRANDMA
    ∧ getAvatarForName "Sue" = AVATAR_GENERIC
    ∧ (∀ (now₁ now₂ uid nm₁ nm₂ : String) (s : ServerState),
        uid ≠ "" → nm₁ ≠ "" → nm₂ ≠ "" → now₁ ≠ "" →
        strStartsWith uid "amzn1." = false →
        s.registeredProfiles uid = none →
        ((postProfileRegister now₂ (some uid) (some nm₂)
          (postProfileRegister now₁ (some uid) (some nm₁) s).2).2).registeredProfiles
            uid =
          some ⟨nm₂, getAvatarForName nm₂, now₁, now₂⟩) := by
  refine ⟨?_, rfl, rfl, ?_⟩
  · intro name
    simp only [getAvatarForName, findAvatar, avatarTable, List.any_cons,
      List.any_nil, Bool.or_false, Bool.or_assoc]
  · intro now₁ now₂ uid nm₁ nm₂ s huid hnm₁ hnm₂ hnow₁ hp hfresh
    cases hhub : s.hubStateByVisitorId uid <;>
      simp [postProfileRegister, optTruthy, huid, hnm₁, hnm₂, getVisitorId, hp,
        getOrCreateHubState, setMap, mkProfile, createdAtOr, hfresh, hnow₁, hhub]

/-- Witness for C6 at a concrete input: registering "Grandma Sue"
twice for `web-1`. -/
theorem C6_avatar_and_registration_timestamps_witness :
    ((postProfileRegister "T2" (some "web-1") (some "Grandma Sue")
      (postProfileRegister "T1" (some "web-1") (some "Grandma Sue")
        initialState).2).2).registeredProfiles "web-1" =
      some ⟨"Grandma Sue", AVATAR_GRANDMA, "T1", "T2"⟩ := by
  have h := C6_avatar_and_registration_timestamps.2.2.2 "T1" "T2" "web-1"
    "Grandma Sue" "Grandma Sue" initialState (by decide) (by decide) (by decide)
    (by decide) rfl rfl
  rw [h, C6_avatar_and_registration_timestamps.2.1]

/-- C10 counterexample: the claim's universal reading — any name
containing the substring "son" receives the child-category avatar —
fails: "Mother Son" contains "son" but receives the mother avatar,
because the mother keyword group is checked first. -/
theorem C10_counterexample_son_with_mother :
    strIncludes (lowerStr "Mother Son") "son" = true
    ∧ getAvatarForName "Mother Son" = AVATAR_WOMAN
    ∧ AVATAR_WOMAN ≠ AVATAR_BOY := by
  exact ⟨rfl, rfl, by decide⟩

/-- C10 (amended): keyword matching runs over the whole lowercased
name with the mother/father/child groups before the grandparent
groups.  Any name containing "mother" (including "Grandmother")
receives the mother-category avatar; a name containing "son" receives
the child avatar when no earlier group matches (e.g. "Jason"); the
separate daughter/girl category yields its own avatar, distinct from
every other avatar in the table. -/
theorem C10_avatar_ordering :
    (∀ name : String, strIncludes (lowerStr name) "mother" = true →
      getAvatarForName name = AVATAR_WOMAN)
    ∧ getAvatarForName "Grandmother" = AVATAR_WOMAN
    ∧ getAvatarForName "Jason" = AVATAR_BOY
    ∧ getAvatarForName "daughter" = AVATAR_GIRL
    ∧ AVATAR_GIRL ≠ AVATAR_WOMAN ∧ AVATAR_GIRL ≠ AVATAR_MAN
    ∧ AVATAR_GIRL ≠ AVATAR_BOY ∧ AVATAR_GIRL ≠ AVATAR_GRANDMA
    ∧ AVATAR_GIRL ≠ AVATAR_GRANDPA ∧ AVATAR_GIRL ≠ AVATAR_STUDENT
    ∧ AVATAR_GIRL ≠ AVATAR_GENERIC := by
  refine ⟨?_, rfl, rfl, rfl, ?_, ?_, ?_, ?_, ?_, ?_, ?_⟩
  · intro name h
    simp [getAvatarForName, h]
  all_goals decide

/-- Witness for C10 at a concrete input. -/
theorem C10_avatar_ordering_witness :
    getAvatarForName "Stepmother" = AVATAR_WOMAN :=
  C10_avatar_ordering.1 "Stepmother" rfl

/-! ### Reachable-state invariant (C9) -/

/-- Every visitor with a registered profile has a hub-state record. -/
def profilesHaveState (s : ServerState) : Prop :=
  ∀ v, (s.registeredProfiles v).isSome = true →
    (s.hubStateByVisitorId v).isSome = true

theorem getOrCreateHubState_hub_ne (v now : String) (s : ServerState)
    (w : String) (hw : w ≠ v) :
    ((getOrCreateHubState v now s).2).hubStateByVisitorId w =
      s.hubStateByVisitorId w := by
  unfold getOrCreateHubState
  cases hm : s.hubStateByVisitorId v <;> simp [setMap, hw]

theorem getOrCreateHubState_hub_self (v now : String) (s : ServerState) :
    (((getOrCreateHubState v now s).2).hubStateByVisitorId v).isSome = true := by
  unfold getOrCreateHubState
  cases hm : s.hubStateByVisitorId v <;> simp [hm, setMap]

/-- A state that differs from `base` only at the visitor `v`, where it
has a hub record, keeps the invariant. -/
theorem inv_of_parts (s' base : ServerState) (v : String)
    (hhub : ∀ w, w ≠ v → s'.hubStateByVisitorId w = base.hubStateByVisitorId w)
    (hhubv : (s'.hubStateByVisitorId v).isSome = true)
    (hreg : ∀ w, w ≠ v → s'.registeredProfiles w = base.registeredProfiles w)
    (hbase : profilesHaveState base) : profilesHaveState s' := by
  intro w hw
  by_cases hwv : w = v
  · rw [hwv]; exact hhubv
  · rw [hhub w hwv]
    rw [hreg w hwv] at hw
    exact hbase w hw

theorem postHubState_preserves_inv (now : String) (u : Option String)
    (st : Option (List (String × JSVal))) (dn : Option String)
    (s : ServerState) (h : profilesHaveState s) :
    profilesHaveState ((postHubState now u st dn s).2) := by
  cases hu : optTruthy u with
  | false => simpa [postHubState, hu] using h
  | true =>
    obtain ⟨uid, rfl⟩ : ∃ uid, u = some uid := by
      cases u with
      | none => simp [optTruthy] at hu
      | some uid => exact ⟨uid, rfl⟩
    have hp1 := (getVisitorId_preserves uid s).1
    have hp2 := (getVisitorId_preserves uid s).2
    have hpr := (getOrCreateHubState_preserves (getVisitorId uid s).1 now
      (getVisitorId uid s).2).1
    refine inv_of_parts _ s (getVisitorId uid s).1 ?_ ?_ ?_ h
    · intro w hwv
      have hne := getOrCreateHubState_hub_ne (getVisitorId uid s).1 now
        (getVisitorId uid s).2 w hwv
      simp only [postHubState, hu, Bool.not_true, Option.getD_some]
      repeat' split
      all_goals simp [setMap, hwv, hne, hp1]
    · simp only [postHubState, hu, Bool.not_true, Option.getD_some]
      repeat' split
      all_goals simp_all [setMap]
    · intro w hwv
      simp only [postHubState, hu, Bool.not_true, Option.getD_some]
      repeat' split
      all_goals simp [setMap, hwv, hpr, hp2]

theorem getHubState_preserves_inv (now u : String) (s : ServerState)
    (h : profilesHaveState s) : profilesHaveState ((getHubState now u s).2) := by
  by_cases hu : u = ""
  · simpa [getHubState, hu] using h
  · have hp1 := (getVisitorId_preserves u s).1
    have hp2 := (getVisitorId_preserves u s).2
    have hpr := (getOrCreateHubState_preserves (getVisitorId u s).1 now
      (getVisitorId u s).2).1
    refine inv_of_parts _ s (getVisitorId u s).1 ?_ ?_ ?_ h
    · intro w hwv
      have hne := getOrCreateHubState_hub_ne (getVisitorId u s).1 now
        (getVisitorId u s).2 w hwv
      simp [getHubState, hu, hne, hp1]
    · simp [getHubState, hu, getOrCreateHubState_hub_self]
    · intro w hwv
      simp [getHubState, hu, hpr, hp2]

theorem getOrCreateHubState_reg (v now : String) (s : ServerState) :
    ((getOrCreateHubState v now s).2).registeredProfiles = s.registeredProfiles :=
  (getOrCreateHubState_preserves v now s).1

theorem postProfileRegister_preserves_inv (now : String) (u n : Option String)
    (s : ServerState) (h : profilesHaveState s) :
    profilesHaveState ((postProfileRegister now u n s).2) := by
  cases hcond : (!optTruthy u || !optTruthy n) with
  | true => simpa [postProfileRegister, hcond] using h
  | false =>
    obtain ⟨uid, rfl⟩ : ∃ uid, u = some uid := by
      cases u with
      | none => simp [optTruthy] at hcond
      | some uid => exact ⟨uid, rfl⟩
    have hp1 := (getVisitorId_preserves uid s).1
    have hp2 := (getVisitorId_preserves uid s).2
    refine inv_of_parts _ s (getVisitorId uid s).1 ?_ ?_ ?_ h
    · intro w hwv
      simp only [postProfileRegister, hcond, Bool.false_eq_true, if_false]
      simp [setMap, hwv, hp1, getOrCreateHubState_hub_ne]
    · simp only [postProfileRegister, hcond, Bool.false_eq_true, if_false]
      simp [setMap]
    · intro w hwv
      simp only [postProfileRegister, hcond, Bool.false_eq_true, if_false]
      simp [setMap, hwv, hp2, getOrCreateHubState_reg]

theorem postHubReset_preserves_inv (now : String) (u : Option String)
    (s : ServerState) (h : profilesHaveState s) :
    profilesHaveState ((postHubReset now u s).2) := by
  cases hu : optTruthy u with
  | false => simpa [postHubReset, hu] using h
  | true =>
    obtain ⟨uid, rfl⟩ : ∃ uid, u = some uid := by
      cases u with
      | none => simp [optTruthy] at hu
      | some uid => exact ⟨uid, rfl⟩
    have hp1 := (getVisitorId_preserves uid s).1
    have hp2 := (getVisitorId_preserves uid s).2
    refine inv_of_parts _ s (getVisitorId uid s).1 ?_ ?_ ?_ h
    · intro w hwv
      simp [postHubReset, hu, setMap, hwv, hp1]
    · simp [postHubReset, hu, setMap]
    · intro w hwv
      simp [postHubReset, hu, hp2]

theorem runRequests_inv :
    ∀ (reqs : List Request) (s : ServerState), profilesHaveState s →
      profilesHaveState (reqs.foldl step s) := by
  intro reqs
  induction reqs with
  | nil => intro s h; exact h
  | cons r rest ih =>
    intro s h
    refine ih (step s r) ?_
    cases r with
    | stateUpdate now u st dn => exact postHubState_preserves_inv now u st dn s h
    | stateRead now u => exact getHubState_preserves_inv now u s h
    | profileRegister now u n => exact postProfileRegister_preserves_inv now u n s h
    | hubReset now u => exact postHubReset_preserves_inv now u s h
    | profilesRead => exact h
    | tasksRead => exact h
    | usersRead => exact h
    | healthRead => exact h

/-- C9: in every store reachable by any request sequence from process
start, a visitor with a registered profile always has a Hub State
record. -/
theorem C9_registered_profile_implies_hub_state :
    ∀ (reqs : List Request) (v : String),
      ((runRequests reqs).registeredProfiles v).isSome = true →
      ((runRequests reqs).hubStateByVisitorId v).isSome = true := by
  intro reqs v hv
  exact runRequests_inv reqs initialState
    (fun w hw => by simp [initialState] at hw) v hv

/-- Witness for C9: after one registration request, `web-1` has both a
profile and a hub-state record. -/
theorem C9_registered_profile_implies_hub_state_witness :
    ((runRequests [Request.profileRegister "T" (some "web-1")
      (some "Mom")]).hubStateByVisitorId "web-1").isSome = true :=
  C9_registered_profile_implies_hub_state
    [Request.profileRegister "T" (some "web-1") (some "Mom")] "web-1" (by rfl)

/-! ### Sharing of the default task records (C2)

`tasks: [...DEFAULT_TASKS]` (server.js line 103) spreads the catalog
array into a new array: the array object is copied, but its elements —
the six task record objects — are the very same references.  To state
what mutation of a task record does, we model the records' object
identity explicitly: a heap maps references (numbers) to task records,
the catalog is a fixed list of references into that heap, and the
spread copies the reference list. -/

/-- One task record's fields. -/
structure TaskRec where
  id : String
  title : String
  icon : String
  description : String
  category : String
  voiceCommand : String
deriving Repr, DecidableEq

/-- Object heap for task records: a reference dereferences to a record. -/
def TaskHeap : Type := Nat → TaskRec

/-- The records of `DEFAULT_TASKS` (server.js lines 51–58). -/
def defaultTaskRecs : List TaskRec := [
  ⟨"t1", "Morning Routine", "â˜€ï¸", "Start your day right", "routine",
    "start my morning routine"⟩,
  ⟨"t2", "Grocery List", "ðŸ›’", "Manage shopping items", "list",
    "open my grocery list"⟩,
  ⟨"t3", "Medication Reminder", "ðŸ’Š", "Never miss a dose", "health",
    "set medication reminder"⟩,
  ⟨"t4", "Control Lights", "ðŸ’¡", "Smart home controls", "home",
    "turn off the lights"⟩,
  ⟨"t5", "Privacy Dashboard", "ðŸ›¡ï¸", "Manage your data", "privacy",
    "show privacy settings"⟩,
  ⟨"t6", "Evening Routine", "ðŸŒ™", "Wind down for the night", "routine",
    "start evening routine"⟩]

/-- The six references the module-level `DEFAULT_TASKS` array holds. -/
def DEFAULT_TASK_REFS : List Nat := [0, 1, 2, 3, 4, 5]

/-- The heap at module load: references `0..5` hold the six records. -/
def initTaskHeap : TaskHeap :=
  fun r => defaultTaskRecs.getD r ⟨"", "", "", "", "", ""⟩

/-- `[...DEFAULT_TASKS]` (server.js line 103): a fresh array holding
the same references — the task records are not cloned. -/
def spreadTasks (catalog : List Nat) : List Nat := catalog

/-- In-place mutation of the record behind a reference (what
`tasks[0].title = ...` does on a visitor's task list). -/
def writeTask (h : TaskHeap) (r : Nat) (t : TaskRec) : TaskHeap :=
  fun x => if x = r then t else h x

/-- C2 counterexample: mutate the title of the first task record
reached through a fresh visitor's task list (the spread copy of the
catalog).  The record the shared catalog's first reference
dereferences to now carries the mutated title — the catalog used to
default the next visitor is altered, so the copy is not deep. -/
theorem C2_counterexample_task_record_shared :
    (writeTask initTaskHeap ((spreadTasks DEFAULT_TASK_REFS).headD 99)
        { initTaskHeap ((spreadTasks DEFAULT_TASK_REFS).headD 99) with
          title := "CHANGED" }
      (DEFAULT_TASK_REFS.headD 98)).title = "CHANGED"
    ∧ (initTaskHeap (DEFAULT_TASK_REFS.headD 98)).title = "Morning Routine" := by
  exact ⟨rfl, rfl⟩

/-- C2 (amended): the spread produces an array holding exactly the
catalog's references (so the records are shared, not deep-copied):
every reference in a visitor's fresh task list is a reference of the
shared catalog, and writing a record through such a reference is read
back through the catalog's same reference. -/
theorem C2_task_catalog_shallow_copy :
    (∀ catalog : List Nat, spreadTasks catalog = catalog)
    ∧ (∀ (h : TaskHeap) (t : TaskRec) (r : Nat),
        r ∈ spreadTasks DEFAULT_TASK_REFS →
        r ∈ DEFAULT_TASK_REFS ∧ writeTask h r t r = t) := by
  refine ⟨fun _ => rfl, fun h t r hr => ⟨hr, ?_⟩⟩
  simp [writeTask]

/-- Witness for C2 at a concrete input. -/
theorem C2_task_catalog_shallow_copy_witness :
    0 ∈ DEFAULT_TASK_REFS
    ∧ writeTask initTaskHeap 0 ⟨"", "", "", "", "", ""⟩ 0 =
        ⟨"", "", "", "", "", ""⟩ :=
  C2_task_catalog_shallow_copy.2 initTaskHeap ⟨"", "", "", "", "", ""⟩ 0
    (by decide)

end HubServer

